import Mathlib

/-!
# piezo-wels: byte-level model of the Thorlabs APT command layer

Shallow embedding of `src/cubini/KPZ101.py` and `src/cubini/KSG101.py`.
Every frame a method passes to `self.com.write` is modelled as a `List ℕ`
of byte values; the `struct.pack` format strings of the source are mirrored
field by field (`<H` = unsigned 16-bit little-endian, `B` = one byte).
Fallible methods return `Except Err (List ℕ)`: `.ok f` means the single
frame `f` was written to the channel, `.error e` means the method raised
before any byte reached the wire (in the source, every validation line
precedes the `self.com.write` line of its method).
-/

/-- Error outcomes of the Python methods, mapped onto the design taxonomy:
an `AssertionError` from a physical-range check is `rangeError`; a
`KeyError` or `AssertionError` on an enumerated code is
`invalidParameterError`; the `AttributeError` raised by calling `write` on
`self.com = None` (the Disconnected state) is `notConnectedError`; the
`AssertionError` on the 90-byte hardware-info check is `handshakeError`;
a `NameError` from an identifier that is bound nowhere is `nameError`. -/
inductive Err
  | rangeError
  | invalidParameterError
  | notConnectedError
  | handshakeError
  | nameError
deriving DecidableEq, Repr

/-- One `<H` field of `struct.pack`: unsigned 16-bit little-endian.
Python 2.7's standard-size unsigned codes write a negative argument
modulo 2 to the 16, i.e. as its two's complement (only arguments at or
above 2 to the 16 are rejected, and no call site can produce one, since
every field passed in lies between -32767 and 65535). -/
def packU16 (n : ℤ) : List ℕ :=
  [(n % 65536).toNat % 256, (n % 65536).toNat / 256]

/-- Python 2's `round`: ties are rounded away from zero.  The source wraps
it as `int(round(x))`; `round` already returns an integral value, so the
outer truncation is exact. -/
def pyRound (q : ℚ) : ℤ :=
  if 0 ≤ q then ⌊q + 1 / 2⌋ else ⌈q - 1 / 2⌉

/-- `self.com.write(frame)`: with `self.com = None` (Disconnected) the
attribute access raises before anything is sent; otherwise the frame goes
on the wire and the method returns nothing further. -/
def writeFrame (connected : Bool) (f : List ℕ) : Except Err (List ℕ) :=
  if connected then .ok f else .error .notConnectedError

/-- Third header byte (`param1`). -/
def param1 : List ℕ → ℕ
  | _ :: _ :: x :: _ => x
  | _ => 0

/-- Fourth header byte (`param2`). -/
def param2 : List ℕ → ℕ
  | _ :: _ :: _ :: x :: _ => x
  | _ => 0

/-- Fifth header byte (destination). -/
def destByte : List ℕ → ℕ
  | _ :: _ :: _ :: _ :: x :: _ => x
  | _ => 0

/-- Whatever follows the fixed 6-byte header. -/
def payloadOf (f : List ℕ) : List ℕ := f.drop 6

/-- The frame invariant of the protocol: a data-payload frame encodes the
payload byte count in param1/param2 as little-endian 16-bit and sets bit 7
of the destination byte; a scalar-form frame (no bytes after the header)
leaves bit 7 clear.  Destination bytes are below 256, so bit 7 being set
is the same as the byte being at least 128. -/
def frameWellFormed : List ℕ → Bool
  | _ :: _ :: p1 :: p2 :: d :: _ :: rest =>
      if rest = [] then decide (d < 128)
      else decide (p1 + 256 * p2 = rest.length) && decide (128 ≤ d) && decide (d < 256)
  | _ => false

namespace KPZ101

/-- Class attribute `channel = 1`. -/
def channel : ℕ := 1

/-- Class attribute `destination = 0x50`. -/
def destination : ℕ := 0x50

/-- Class attribute `source = 0x01`. -/
def source : ℕ := 0x01

/-- Class attribute `MAX_POSITION = 30` micrometers. -/
def MAX_POSITION : ℕ := 30

/-- `position_to_device_unit_sf = 32767. / MAX_POSITION`. -/
def position_to_device_unit_sf : ℚ := 32767 / MAX_POSITION

/-- `voltage_to_device_unit_sf = 32767. / MAX_VOLTAGE`.  The class
attribute `MAX_VOLTAGE` is assignable configuration (one of 75, 100,
150 V), so it is a parameter of the model. -/
def voltage_to_device_unit_sf (MAX_VOLTAGE : ℕ) : ℚ :=
  32767 / MAX_VOLTAGE

/-- Class attribute `FEEDBACK_SOURCE = 0x03`. -/
def FEEDBACK_SOURCE : ℕ := 0x03

/-- `KPZ101.get_hwinfo` as written sends the request through the bare name
`com`, which is bound nowhere reachable from the method (the opened serial
port is a local variable of `__init__` only), so every call raises
`NameError` before any byte is written or read. -/
def get_hwinfo : Except Err (List ℕ) := .error .nameError

/-- The handshake portion of `KPZ101.__init__`: call `get_hwinfo`, then
require a 90-byte response.  `hwResponse` is what the channel would answer
to the hardware-info request; because `get_hwinfo` raises first, it is
never consulted. -/
def init (_hwResponse : List ℕ) : Except Err Unit :=
  match get_hwinfo with
  | .error e => .error e
  | .ok hw_info => if hw_info.length = 90 then .ok () else .error .handshakeError

/-- The voltage-limit code dictionary `{75: 0x01, 100: 0x02, 150: 0x03}`;
`none` models the `KeyError` a lookup of any other key raises. -/
def voltage_bytes (MAX_VOLTAGE : ℕ) : Option ℕ :=
  if MAX_VOLTAGE = 75 then some 0x01
  else if MAX_VOLTAGE = 100 then some 0x02
  else if MAX_VOLTAGE = 150 then some 0x03
  else none

/-- Frame of `set_max_voltage`:
`pack('<HBBBBHHHHH', 0x07D4, 0x0A, 0x00, destination | 0x80, source,
channel, voltage_byte, FEEDBACK_SOURCE, 0x00, 0x00)`. -/
def max_voltage_frame (voltage_byte : ℕ) : List ℕ :=
  packU16 0x07D4 ++ [0x0A, 0x00, destination ||| 0x80, source] ++
    packU16 channel ++ packU16 voltage_byte ++ packU16 FEEDBACK_SOURCE ++
    packU16 0x00 ++ packU16 0x00

/-- `KPZ101.set_max_voltage` (message 0x07D4): look the configured
`MAX_VOLTAGE` up in the code dictionary — a missing key raises before the
write — and send the I/O-settings frame. -/
def set_max_voltage (connected : Bool) (MAX_VOLTAGE : ℕ) : Except Err (List ℕ) :=
  match voltage_bytes MAX_VOLTAGE with
  | none => .error .invalidParameterError
  | some voltage_byte => writeFrame connected (max_voltage_frame voltage_byte)

/-- Frame of `set_input_mode`:
`pack('<HBBBBHH', 0x0652, 0x04, 0x00, destination | 0x80, source, channel,
INPUT_MODE)`. -/
def input_mode_frame (INPUT_MODE : ℕ) : List ℕ :=
  packU16 0x0652 ++ [0x04, 0x00, destination ||| 0x80, source] ++
    packU16 channel ++ packU16 INPUT_MODE

/-- `KPZ101.set_input_mode` (message 0x0652): the assert admits exactly the
codes 0x00, 0x01, 0x02 — note 0x03 is not in the tuple — then sends the
input-source frame.  `INPUT_MODE` is assignable class-attribute
configuration, so it is a parameter of the model. -/
def set_input_mode (connected : Bool) (INPUT_MODE : ℕ) : Except Err (List ℕ) :=
  if INPUT_MODE = 0x00 ∨ INPUT_MODE = 0x01 ∨ INPUT_MODE = 0x02 then
    writeFrame connected (input_mode_frame INPUT_MODE)
  else .error .invalidParameterError

/-- Frame of `enable_channel`:
`pack('<HBBBB', 0x0210, channel, 0x01, destination, source)`. -/
def enable_channel_frame : List ℕ :=
  packU16 0x0210 ++ [channel, 0x01, destination, source]

/-- `KPZ101.enable_channel` (message 0x0210, scalar form). -/
def enable_channel (connected : Bool) : Except Err (List ℕ) :=
  writeFrame connected enable_channel_frame

/-- Frame of `disable_channel`:
`pack('<HBBBB', 0x0210, channel, 0x02, destination, source)`. -/
def disable_channel_frame : List ℕ :=
  packU16 0x0210 ++ [channel, 0x02, destination, source]

/-- `KPZ101.disable_channel` (message 0x0210, scalar form). -/
def disable_channel (connected : Bool) : Except Err (List ℕ) :=
  writeFrame connected disable_channel_frame

/-- `KPZ101.set_pos_control_mode` as written asserts on the bare name
`pos_control_mode`, which is bound nowhere (the class attribute is
`POS_CONTROL_MODE` and would be reached as `self.POS_CONTROL_MODE`), so
every call raises `NameError` before the write line. -/
def set_pos_control_mode (_connected : Bool) : Except Err (List ℕ) :=
  .error .nameError

/-- Frame of `set_output_voltage`:
`pack('<HBBBBHH', 0x0643, 0x04, 0x00, destination | 0x80, source, channel,
voltage_device_units)` with
`voltage_device_units = int(round(voltage_to_device_unit_sf * v))`. -/
def output_voltage_frame (MAX_VOLTAGE : ℕ) (v : ℚ) : List ℕ :=
  packU16 0x0643 ++ [0x04, 0x00, destination ||| 0x80, source] ++
    packU16 channel ++ packU16 (pyRound (voltage_to_device_unit_sf MAX_VOLTAGE * v))

/-- `KPZ101.set_output_voltage` (message 0x0643): assert
`0 <= v <= MAX_VOLTAGE`, convert to device units, send the frame. -/
def set_output_voltage (connected : Bool) (MAX_VOLTAGE : ℕ) (v : ℚ) :
    Except Err (List ℕ) :=
  if 0 ≤ v ∧ v ≤ (MAX_VOLTAGE : ℚ) then
    writeFrame connected (output_voltage_frame MAX_VOLTAGE v)
  else .error .rangeError

/-- Frame of `set_output_position`:
`pack('<HBBBBHH', 0x0646, 0x04, 0x00, destination | 0x80, source, channel,
position_device_units)` with
`position_device_units = int(round(position_to_device_unit_sf * p))`. -/
def output_position_frame (p : ℚ) : List ℕ :=
  packU16 0x0646 ++ [0x04, 0x00, destination ||| 0x80, source] ++
    packU16 channel ++ packU16 (pyRound (position_to_device_unit_sf * p))

/-- `KPZ101.set_output_position` (message 0x0646): assert
`-MAX_POSITION <= p <= MAX_POSITION`, convert to device units, send the
frame.  A negative device-unit value reaches the wire through `packU16`
as its 16-bit two's complement. -/
def set_output_position (connected : Bool) (p : ℚ) : Except Err (List ℕ) :=
  if -(MAX_POSITION : ℚ) ≤ p ∧ p ≤ (MAX_POSITION : ℚ) then
    writeFrame connected (output_position_frame p)
  else .error .rangeError

/-- `KPZ101.set_proportional_integral_terms` as written asserts on the bare
names `p` and `i` — its parameters are named `proportional` and `integral`
and neither `p` nor `i` is bound anywhere — so every call raises
`NameError` before the 0x0655 frame is built or written. -/
def set_proportional_integral_terms (_connected : Bool)
    (_proportional _integral : ℤ) : Except Err (List ℕ) :=
  .error .nameError

end KPZ101

namespace KSG101

/-- Class attribute `channel = 1`. -/
def channel : ℕ := 1

/-- Class attribute `destination = 0x50`. -/
def destination : ℕ := 0x50

/-- Class attribute `source = 0x01`. -/
def source : ℕ := 0x01

/-- Frame of `KSG101.get_hwinfo`:
`pack('<HBBBB', 0x0005, 0x00, 0x00, 0x50, 0x01)`. -/
def hwinfo_request_frame : List ℕ :=
  packU16 0x0005 ++ [0x00, 0x00, 0x50, 0x01]

/-- `KSG101.get_hwinfo`: write the hardware-info request through
`self.com`, then return whatever `readBytes` yields.  The result pairs the
frame written with the raw response. -/
def get_hwinfo (response : List ℕ) : List ℕ × List ℕ :=
  (hwinfo_request_frame, response)

/-- The handshake portion of `KSG101.__init__`: `self.com` is assigned
before the handshake, `get_hwinfo` runs over it, and the assert requires a
90-byte response; any other length raises. -/
def init (hwResponse : List ℕ) : Except Err Unit :=
  let hw_info := (get_hwinfo hwResponse).2
  if hw_info.length = 90 then .ok () else .error .handshakeError

/-- Frame of `KSG101.enable_channel`:
`pack('<HBBBB', 0x0210, channel, 0x01, destination, source)`. -/
def enable_channel_frame : List ℕ :=
  packU16 0x0210 ++ [channel, 0x01, destination, source]

/-- `KSG101.enable_channel` (message 0x0210, scalar form). -/
def enable_channel (connected : Bool) : Except Err (List ℕ) :=
  writeFrame connected enable_channel_frame

/-- Frame of `KSG101.disable_channel`:
`pack('<HBBBB', 0x0210, channel, 0x02, destination, source)`. -/
def disable_channel_frame : List ℕ :=
  packU16 0x0210 ++ [channel, 0x02, destination, source]

/-- `KSG101.disable_channel` (message 0x0210, scalar form). -/
def disable_channel (connected : Bool) : Except Err (List ℕ) :=
  writeFrame connected disable_channel_frame

/-- Frame of `set_zero`:
`pack('<HBBBB', 0x0658, channel, 0x00, destination, source)`. -/
def zero_frame : List ℕ :=
  packU16 0x0658 ++ [channel, 0x00, destination, source]

/-- `KSG101.set_zero` (message 0x0658, scalar form). -/
def set_zero (connected : Bool) : Except Err (List ℕ) :=
  writeFrame connected zero_frame

/-- Frame of `get_status`:
`pack('<HBBBB', 0x0660, channel, 0x00, destination, source)`. -/
def status_request_frame : List ℕ :=
  packU16 0x0660 ++ [channel, 0x00, destination, source]

/-- `KSG101.get_status` (request message 0x0660): write the request, then
return the raw response bytes.  `.ok` pairs the written frame with the
response. -/
def get_status (connected : Bool) (response : List ℕ) :
    Except Err (List ℕ × List ℕ) :=
  if connected then .ok (status_request_frame, response)
  else .error .notConnectedError

/-- Frame of `get_sg_reading`:
`pack('<HBBBB', 0x07DD, channel, 0x00, destination, source)`. -/
def sg_reading_request_frame : List ℕ :=
  packU16 0x07DD ++ [channel, 0x00, destination, source]

/-- `KSG101.get_sg_reading` (request message 0x07DD): write the request,
then return the raw response bytes. -/
def get_sg_reading (connected : Bool) (response : List ℕ) :
    Except Err (List ℕ × List ℕ) :=
  if connected then .ok (sg_reading_request_frame, response)
  else .error .notConnectedError

end KSG101

/-! ## Claim theorems -/

/-- Claim C1: every command frame the sessions pass to the channel obeys
the frame invariant — a data-payload frame encodes the payload byte count
in param1/param2 as little-endian 16-bit and sets bit 7 of the destination
byte, while a scalar-form frame carries the command's two scalar bytes in
param1/param2 and leaves bit 7 clear.  The frame-builder definitions below
are exactly the arguments the methods hand to `self.com.write`. -/
theorem frame_invariant_all_writes :
    (∀ MAX_VOLTAGE v, frameWellFormed (KPZ101.output_voltage_frame MAX_VOLTAGE v) = true ∧
        (payloadOf (KPZ101.output_voltage_frame MAX_VOLTAGE v)).length = 4) ∧
    (∀ p, frameWellFormed (KPZ101.output_position_frame p) = true ∧
        (payloadOf (KPZ101.output_position_frame p)).length = 4) ∧
    (∀ voltage_byte, frameWellFormed (KPZ101.max_voltage_frame voltage_byte) = true ∧
        (payloadOf (KPZ101.max_voltage_frame voltage_byte)).length = 10) ∧
    (∀ INPUT_MODE, frameWellFormed (KPZ101.input_mode_frame INPUT_MODE) = true ∧
        (payloadOf (KPZ101.input_mode_frame INPUT_MODE)).length = 4) ∧
    (frameWellFormed KPZ101.enable_channel_frame = true ∧
        payloadOf KPZ101.enable_channel_frame = [] ∧
        param1 KPZ101.enable_channel_frame = KPZ101.channel ∧
        param2 KPZ101.enable_channel_frame = 0x01) ∧
    (frameWellFormed KPZ101.disable_channel_frame = true ∧
        payloadOf KPZ101.disable_channel_frame = [] ∧
        param1 KPZ101.disable_channel_frame = KPZ101.channel ∧
        param2 KPZ101.disable_channel_frame = 0x02) ∧
    (frameWellFormed KSG101.enable_channel_frame = true ∧
        payloadOf KSG101.enable_channel_frame = [] ∧
        param1 KSG101.enable_channel_frame = KSG101.channel ∧
        param2 KSG101.enable_channel_frame = 0x01) ∧
    (frameWellFormed KSG101.disable_channel_frame = true ∧
        payloadOf KSG101.disable_channel_frame = [] ∧
        param1 KSG101.disable_channel_frame = KSG101.channel ∧
        param2 KSG101.disable_channel_frame = 0x02) ∧
    (frameWellFormed KSG101.zero_frame = true ∧
        payloadOf KSG101.zero_frame = [] ∧
        param1 KSG101.zero_frame = KSG101.channel ∧
        param2 KSG101.zero_frame = 0x00) ∧
    (frameWellFormed KSG101.status_request_frame = true ∧
        payloadOf KSG101.status_request_frame = [] ∧
        param1 KSG101.status_request_frame = KSG101.channel ∧
        param2 KSG101.status_request_frame = 0x00) ∧
    (frameWellFormed KSG101.sg_reading_request_frame = true ∧
        payloadOf KSG101.sg_reading_request_frame = [] ∧
        param1 KSG101.sg_reading_request_frame = KSG101.channel ∧
        param2 KSG101.sg_reading_request_frame = 0x00) ∧
    (frameWellFormed KSG101.hwinfo_request_frame = true ∧
        payloadOf KSG101.hwinfo_request_frame = [] ∧
        param1 KSG101.hwinfo_request_frame = 0x00 ∧
        param2 KSG101.hwinfo_request_frame = 0x00) := by
  refine ⟨fun mv v => ⟨rfl, rfl⟩, fun p => ⟨rfl, rfl⟩, fun vb => ⟨rfl, rfl⟩,
    fun im => ⟨rfl, rfl⟩, ?_, ?_, ?_, ?_, ?_, ?_, ?_, ?_⟩ <;>
    exact ⟨rfl, rfl, rfl, rfl⟩

/-- Claim C2: `set_output_voltage` raises the range error exactly when
`v < 0` or `v > MAX_VOLTAGE`, writing nothing in that case whatever the
connection state; for every in-range `v` on a connected session it writes
the 0x0643 frame whose voltage field is
`round(voltage_to_device_unit_sf * v)` with ties away from zero. -/
theorem set_output_voltage_range_check (MAX_VOLTAGE : ℕ) (v : ℚ)
    (_hmv : MAX_VOLTAGE = 75 ∨ MAX_VOLTAGE = 100 ∨ MAX_VOLTAGE = 150) :
    (∀ connected, (v < 0 ∨ (MAX_VOLTAGE : ℚ) < v) →
        KPZ101.set_output_voltage connected MAX_VOLTAGE v = .error .rangeError) ∧
    (KPZ101.set_output_voltage true MAX_VOLTAGE v = .error .rangeError ↔
        (v < 0 ∨ (MAX_VOLTAGE : ℚ) < v)) ∧
    (0 ≤ v → v ≤ (MAX_VOLTAGE : ℚ) →
        KPZ101.set_output_voltage true MAX_VOLTAGE v =
          .ok (KPZ101.output_voltage_frame MAX_VOLTAGE v)) := by
  have hout : ∀ connected, (v < 0 ∨ (MAX_VOLTAGE : ℚ) < v) →
      KPZ101.set_output_voltage connected MAX_VOLTAGE v = .error .rangeError := by
    intro c h
    rw [KPZ101.set_output_voltage, if_neg]
    rintro ⟨h0, h1⟩
    rcases h with h | h
    · exact absurd h0 (not_le.mpr h)
    · exact absurd h1 (not_le.mpr h)
  have hin : 0 ≤ v → v ≤ (MAX_VOLTAGE : ℚ) →
      KPZ101.set_output_voltage true MAX_VOLTAGE v =
        .ok (KPZ101.output_voltage_frame MAX_VOLTAGE v) := by
    intro h0 h1
    rw [KPZ101.set_output_voltage, if_pos ⟨h0, h1⟩]
    rfl
  refine ⟨hout, ⟨fun he => ?_, hout true⟩, hin⟩
  by_contra hn
  push_neg at hn
  rw [hin hn.1 hn.2] at he
  exact Except.noConfusion he

/-- Claim C2 witness: at `MAX_VOLTAGE = 75`, the voltage 10 V encodes to
device units `round(32767 / 75 * 10) = 4369` = `0x1111`, and the voltages
-1 V and 76 V are rejected. -/
theorem set_output_voltage_range_check_witness :
    KPZ101.set_output_voltage true 75 10 =
      .ok [0x43, 0x06, 0x04, 0x00, 0xD0, 0x01, 0x01, 0x00, 0x11, 0x11] ∧
    KPZ101.set_output_voltage true 75 (-1) = .error .rangeError ∧
    KPZ101.set_output_voltage true 75 76 = .error .rangeError := by
  refine ⟨?_, ?_, ?_⟩
  · have h := (set_output_voltage_range_check 75 10 (Or.inl rfl)).2.2
      (by norm_num) (by norm_num)
    rw [h]
    have hr : pyRound (KPZ101.voltage_to_device_unit_sf 75 * 10) = 4369 := by
      rw [KPZ101.voltage_to_device_unit_sf, pyRound, if_pos (by norm_num)]
      rw [Int.floor_eq_iff]
      constructor
      · norm_num
      · norm_num
    rw [KPZ101.output_voltage_frame, hr]
    rfl
  · exact (set_output_voltage_range_check 75 (-1) (Or.inl rfl)).1 true
      (Or.inl (by norm_num))
  · exact (set_output_voltage_range_check 75 76 (Or.inl rfl)).1 true
      (Or.inr (by norm_num))

/-- Claim C3: `set_output_position` raises the range error exactly when
`|p| > MAX_POSITION`; every `p` with `-MAX_POSITION ≤ p ≤ MAX_POSITION`,
negative values included, is converted by
`round(position_to_device_unit_sf * p)` and written in the 0x0646 frame;
the device-unit value stays within the signed 16-bit range, and `packU16`
puts a negative value on the wire as its 16-bit two's complement. -/
theorem set_output_position_signed_range (p : ℚ) :
    (∀ connected, (KPZ101.MAX_POSITION : ℚ) < |p| →
        KPZ101.set_output_position connected p = .error .rangeError) ∧
    (KPZ101.set_output_position true p = .error .rangeError ↔
        (KPZ101.MAX_POSITION : ℚ) < |p|) ∧
    (-(KPZ101.MAX_POSITION : ℚ) ≤ p → p ≤ (KPZ101.MAX_POSITION : ℚ) →
        KPZ101.set_output_position true p = .ok (KPZ101.output_position_frame p)) ∧
    (-(KPZ101.MAX_POSITION : ℚ) ≤ p → p ≤ (KPZ101.MAX_POSITION : ℚ) →
        -32767 ≤ pyRound (KPZ101.position_to_device_unit_sf * p) ∧
          pyRound (KPZ101.position_to_device_unit_sf * p) ≤ 32767) ∧
    (∀ u : ℤ, -32768 ≤ u → u < 0 →
        packU16 u = [(65536 + u).toNat % 256, (65536 + u).toNat / 256]) := by
  have habs : ∀ a b : ℚ, (b < |a|) ↔ ¬(-b ≤ a ∧ a ≤ b) := by
    intro a b
    rw [lt_abs]
    constructor
    · rintro (h | h) ⟨h1, h2⟩
      · exact absurd h2 (not_le.mpr h)
      · exact absurd h1 (not_le.mpr (by linarith))
    · intro h
      by_contra hn
      push_neg at hn
      exact h ⟨by linarith [hn.2], hn.1⟩
  have hout : ∀ connected, (KPZ101.MAX_POSITION : ℚ) < |p| →
      KPZ101.set_output_position connected p = .error .rangeError := by
    intro c h
    rw [KPZ101.set_output_position, if_neg ((habs p _).mp h)]
  have hin : -(KPZ101.MAX_POSITION : ℚ) ≤ p → p ≤ (KPZ101.MAX_POSITION : ℚ) →
      KPZ101.set_output_position true p = .ok (KPZ101.output_position_frame p) := by
    intro h0 h1
    rw [KPZ101.set_output_position, if_pos ⟨h0, h1⟩]
    rfl
  refine ⟨hout, ⟨fun he => ?_, hout true⟩, hin, fun h0 h1 => ?_, fun u hu0 hu1 => ?_⟩
  · by_contra hn
    rw [habs p _] at hn
    push_neg at hn
    rw [hin hn.1 hn.2] at he
    exact Except.noConfusion he
  · have hsf : KPZ101.position_to_device_unit_sf = 32767 / 30 := by
      rw [KPZ101.position_to_device_unit_sf, KPZ101.MAX_POSITION]
      norm_num
    have hM : (KPZ101.MAX_POSITION : ℚ) = 30 := by rw [KPZ101.MAX_POSITION]; norm_num
    rw [hM] at h0 h1
    rw [hsf]
    have hub : (32767 / 30 : ℚ) * p ≤ 32767 := by nlinarith
    have hlb : (-32767 : ℚ) ≤ (32767 / 30 : ℚ) * p := by nlinarith
    rw [pyRound]
    split
    · constructor
      · have : (0 : ℤ) ≤ ⌊(32767 / 30 : ℚ) * p + 1 / 2⌋ := by
          apply Int.le_floor.mpr
          push_cast
          linarith
        linarith
      · have h32 : ⌊(32767 / 30 : ℚ) * p + 1 / 2⌋ ≤ ⌊(65535 : ℚ) / 2⌋ :=
          Int.floor_le_floor (by linarith)
        have h32v : ⌊(65535 : ℚ) / 2⌋ = 32767 := by
          rw [Int.floor_eq_iff]
          constructor
          · norm_num
          · norm_num
        rw [h32v] at h32
        exact h32
    · rename_i hneg
      push_neg at hneg
      constructor
      · have h32 : ⌈-(65535 : ℚ) / 2⌉ ≤ ⌈(32767 / 30 : ℚ) * p - 1 / 2⌉ :=
          Int.ceil_le_ceil (by linarith)
        have h32v : ⌈-(65535 : ℚ) / 2⌉ = -32767 := by
          rw [Int.ceil_eq_iff]
          constructor
          · norm_num
          · norm_num
        rw [h32v] at h32
        exact h32
      · have h0 : ⌈(32767 / 30 : ℚ) * p - 1 / 2⌉ ≤ 0 :=
          Int.ceil_le.mpr (by push_cast; linarith)
        linarith
  · rw [packU16]
    have hmod : u % 65536 = 65536 + u := by omega
    rw [hmod]

/-- Claim C3 witness: the position -15 µm (half of negative full scale) is
accepted and encodes to `round(32767 / 30 * -15) = -16384`, which reaches
the wire as the two's-complement bytes `00 C0`; the position 31 µm is
rejected; `packU16` is evaluated on -16384 through the general
two's-complement equation. -/
theorem set_output_position_signed_range_witness :
    KPZ101.set_output_position true (-15) =
      .ok [0x46, 0x06, 0x04, 0x00, 0xD0, 0x01, 0x01, 0x00, 0x00, 0xC0] ∧
    KPZ101.set_output_position true 31 = .error .rangeError ∧
    packU16 (-16384) = [0x00, 0xC0] := by
  refine ⟨?_, ?_, ?_⟩
  · have h := (set_output_position_signed_range (-15)).2.2.1
      (by norm_num [KPZ101.MAX_POSITION]) (by norm_num [KPZ101.MAX_POSITION])
    rw [h]
    have hr : pyRound (KPZ101.position_to_device_unit_sf * (-15)) = -16384 := by
      rw [KPZ101.position_to_device_unit_sf, KPZ101.MAX_POSITION]
      rw [pyRound, if_neg (by norm_num)]
      rw [Int.ceil_eq_iff]
      constructor
      · norm_num
      · norm_num
    rw [KPZ101.output_position_frame, hr]
    rfl
  · exact (set_output_position_signed_range 31).1 true
      (by norm_num [KPZ101.MAX_POSITION])
  · exact ((set_output_position_signed_range 0).2.2.2.2 (-16384)
      (by norm_num) (by norm_num)).trans (by decide)

/-- Claim C4: session construction checks the hardware-info response
length.  `KSG101.__init__` behaves as specified: exactly 90 bytes connect,
89 or 91 bytes raise the handshake error.  `KPZ101.__init__` cannot: its
`get_hwinfo` reads the unbound name `com` (and `self.com` is still `None`
at that point), so construction raises `NameError` even when the channel
would answer exactly 90 bytes. -/
theorem handshake_length_check :
    KPZ101.init (List.replicate 90 0) = .error .nameError ∧
    KPZ101.get_hwinfo = .error .nameError ∧
    KSG101.init (List.replicate 90 0) = .ok () ∧
    KSG101.init (List.replicate 89 0) = .error .handshakeError ∧
    KSG101.init (List.replicate 91 0) = .error .handshakeError ∧
    (∀ r : List ℕ, KSG101.init r = .ok () ↔ r.length = 90) := by
  refine ⟨rfl, rfl, by rfl, by rfl, by rfl, fun r => ?_⟩
  simp only [KSG101.init, KSG101.get_hwinfo]
  constructor
  · intro h
    by_contra hn
    rw [if_neg hn] at h
    exact Except.noConfusion h
  · intro h
    rw [if_pos h]

/-- Claim C5: `set_max_voltage` maps the configured limit through the
dictionary 75 to 0x01, 100 to 0x02, 150 to 0x03 into the 0x07D4 frame; any
other configured limit (120 among them) raises the lookup error before any
byte is written, connected or not. -/
theorem set_max_voltage_limit_codes :
    KPZ101.voltage_bytes 75 = some 0x01 ∧
    KPZ101.voltage_bytes 100 = some 0x02 ∧
    KPZ101.voltage_bytes 150 = some 0x03 ∧
    (∀ MAX_VOLTAGE code, KPZ101.voltage_bytes MAX_VOLTAGE = some code →
        KPZ101.set_max_voltage true MAX_VOLTAGE = .ok (KPZ101.max_voltage_frame code)) ∧
    (∀ MAX_VOLTAGE, MAX_VOLTAGE ≠ 75 → MAX_VOLTAGE ≠ 100 → MAX_VOLTAGE ≠ 150 →
        KPZ101.voltage_bytes MAX_VOLTAGE = none) ∧
    (∀ connected MAX_VOLTAGE, KPZ101.voltage_bytes MAX_VOLTAGE = none →
        KPZ101.set_max_voltage connected MAX_VOLTAGE = .error .invalidParameterError) ∧
    (∀ connected, KPZ101.set_max_voltage connected 120 = .error .invalidParameterError) := by
  refine ⟨rfl, rfl, rfl, fun mv code h => ?_, fun mv h1 h2 h3 => ?_,
    fun c mv h => ?_, fun c => ?_⟩
  · rw [KPZ101.set_max_voltage, h]
    rfl
  · rw [KPZ101.voltage_bytes, if_neg h1, if_neg h2, if_neg h3]
  · rw [KPZ101.set_max_voltage, h]
  · cases c <;> rfl

/-- Claim C5 witness: the limit 75 V produces the frame with code byte
0x01, and the unsupported limit 120 V is rejected on a connected session
with nothing written. -/
theorem set_max_voltage_limit_codes_witness :
    KPZ101.set_max_voltage true 75 =
      .ok [0xD4, 0x07, 0x0A, 0x00, 0xD0, 0x01, 0x01, 0x00, 0x01, 0x00,
           0x03, 0x00, 0x00, 0x00, 0x00, 0x00] ∧
    KPZ101.set_max_voltage true 120 = .error .invalidParameterError ∧
    KPZ101.voltage_bytes 120 = none := by
  refine ⟨?_, ?_, ?_⟩
  · exact set_max_voltage_limit_codes.2.2.2.1 75 0x01 rfl
  · exact set_max_voltage_limit_codes.2.2.2.2.2.1 true 120
      (set_max_voltage_limit_codes.2.2.2.2.1 120
        (by norm_num) (by norm_num) (by norm_num))
  · exact set_max_voltage_limit_codes.2.2.2.2.1 120
      (by norm_num) (by norm_num) (by norm_num)

/-- Claim C6: on a Disconnected session (`self.com = None`) every command
operation fails before any byte reaches the channel.  The operations whose
validation lines are intact fail with the not-connected error when the
write is attempted; `set_pos_control_mode` and
`set_proportional_integral_terms`, however, fail with `NameError` from
their asserts on unbound names — not with the not-connected error the
claim states — and `set_proportional_integral_terms` does so even with
in-range arguments. -/
theorem disconnected_operations :
    KPZ101.enable_channel false = .error .notConnectedError ∧
    KPZ101.disable_channel false = .error .notConnectedError ∧
    KPZ101.set_max_voltage false 75 = .error .notConnectedError ∧
    KPZ101.set_input_mode false 0x00 = .error .notConnectedError ∧
    KPZ101.set_output_voltage false 75 10 = .error .notConnectedError ∧
    KPZ101.set_output_position false 10 = .error .notConnectedError ∧
    KSG101.enable_channel false = .error .notConnectedError ∧
    KSG101.disable_channel false = .error .notConnectedError ∧
    KSG101.set_zero false = .error .notConnectedError ∧
    KSG101.get_status false [] = .error .notConnectedError ∧
    KSG101.get_sg_reading false [] = .error .notConnectedError ∧
    KPZ101.set_pos_control_mode false = .error .nameError ∧
    KPZ101.set_proportional_integral_terms false 120 120 = .error .nameError := by
  refine ⟨rfl, rfl, rfl, rfl, ?_, ?_, rfl, rfl, rfl, rfl, rfl, rfl, rfl⟩
  · rw [KPZ101.set_output_voltage, if_pos]
    · rfl
    · constructor
      · norm_num
      · norm_num
  · rw [KPZ101.set_output_position, if_pos]
    · rfl
    · constructor
      · norm_num [KPZ101.MAX_POSITION]
      · norm_num [KPZ101.MAX_POSITION]

/-- Claim C7: `set_proportional_integral_terms` never reaches its range
check or its write: the asserts evaluate the unbound names `p` and `i`
instead of the parameters `proportional` and `integral`, so every call —
the in-range `(120, 120)` of the repository's own `test()` included —
raises `NameError` and the 0x0655 frame is never written. -/
theorem set_pi_terms_always_name_error :
    (∀ connected (proportional integral : ℤ),
        KPZ101.set_proportional_integral_terms connected proportional integral =
          .error .nameError) ∧
    KPZ101.set_proportional_integral_terms true 120 120 = .error .nameError :=
  ⟨fun _ _ _ => rfl, rfl⟩

/-- Claim C8: for each supported limit, converting the full-scale voltage
`v = MAX_VOLTAGE` gives exactly 32767 device units, and at 75 V the 0x0643
frame carries the field bytes FF 7F. -/
theorem full_scale_voltage_maps_to_32767 :
    pyRound (KPZ101.voltage_to_device_unit_sf 75 * 75) = 32767 ∧
    pyRound (KPZ101.voltage_to_device_unit_sf 100 * 100) = 32767 ∧
    pyRound (KPZ101.voltage_to_device_unit_sf 150 * 150) = 32767 ∧
    KPZ101.set_output_voltage true 75 75 =
      .ok [0x43, 0x06, 0x04, 0x00, 0xD0, 0x01, 0x01, 0x00, 0xFF, 0x7F] := by
  have h75 : pyRound (KPZ101.voltage_to_device_unit_sf 75 * 75) = 32767 := by
    rw [KPZ101.voltage_to_device_unit_sf, pyRound, if_pos (by norm_num)]
    rw [Int.floor_eq_iff]
    constructor
    · norm_num
    · norm_num
  refine ⟨h75, ?_, ?_, ?_⟩
  · rw [KPZ101.voltage_to_device_unit_sf, pyRound, if_pos (by norm_num)]
    rw [Int.floor_eq_iff]
    constructor
    · norm_num
    · norm_num
  · rw [KPZ101.voltage_to_device_unit_sf, pyRound, if_pos (by norm_num)]
    rw [Int.floor_eq_iff]
    constructor
    · norm_num
    · norm_num
  · rw [KPZ101.set_output_voltage, if_pos]
    · rw [KPZ101.output_voltage_frame, h75]
      rfl
    · constructor
      · norm_num
      · norm_num

/-- Claim C9 counterexample: the input-source code 0x03 is not accepted —
`set_input_mode` on a connected session raises the parameter error instead
of writing the 0x0652 frame, because the assert tuple is
`(0x00, 0x01, 0x02)`. -/
theorem set_input_mode_rejects_0x03 :
    KPZ101.set_input_mode true 0x03 = .error .invalidParameterError := rfl

/-- Claim C9 (amended): `set_input_mode` accepts exactly the input-source
codes 0x00, 0x01, 0x02 — each is written unchanged into the 0x0652 frame —
and rejects every other code, 0x03 included, before any write, whatever
the connection state. -/
theorem set_input_mode_accepts_0_to_2 (INPUT_MODE : ℕ) :
    (INPUT_MODE ≤ 0x02 → KPZ101.set_input_mode true INPUT_MODE =
        .ok (KPZ101.input_mode_frame INPUT_MODE)) ∧
    (∀ connected, 0x02 < INPUT_MODE →
        KPZ101.set_input_mode connected INPUT_MODE = .error .invalidParameterError) := by
  constructor
  · intro h
    rw [KPZ101.set_input_mode, if_pos (by omega)]
    rfl
  · intro c h
    rw [KPZ101.set_input_mode, if_neg (by omega)]

/-- Claim C9 witness: code 0x01 passes validation and appears unchanged as
the payload's mode field; code 0x03 is rejected. -/
theorem set_input_mode_accepts_0_to_2_witness :
    KPZ101.set_input_mode true 0x01 =
      .ok [0x52, 0x06, 0x04, 0x00, 0xD0, 0x01, 0x01, 0x00, 0x01, 0x00] ∧
    KPZ101.set_input_mode false 0x03 = .error .invalidParameterError := by
  constructor
  · exact (set_input_mode_accepts_0_to_2 0x01).1 (by norm_num)
  · exact (set_input_mode_accepts_0_to_2 0x03).2 false (by norm_num)

/-- Claim C10: on a connected session, `enable_channel` writes exactly the
6-byte scalar frame 10 02 01 01 50 01 (message 0x0210 little-endian,
param1 = channel, param2 = 0x01, destination 0x50 with bit 7 clear,
source 0x01) and `disable_channel` the identical frame with param2 = 0x02,
in both classes; neither frame carries a data payload. -/
theorem enable_disable_channel_frames :
    KPZ101.enable_channel true = .ok [0x10, 0x02, 0x01, 0x01, 0x50, 0x01] ∧
    KPZ101.disable_channel true = .ok [0x10, 0x02, 0x01, 0x02, 0x50, 0x01] ∧
    KSG101.enable_channel true = .ok [0x10, 0x02, 0x01, 0x01, 0x50, 0x01] ∧
    KSG101.disable_channel true = .ok [0x10, 0x02, 0x01, 0x02, 0x50, 0x01] ∧
    payloadOf KPZ101.enable_channel_frame = [] ∧
    payloadOf KPZ101.disable_channel_frame = [] ∧
    destByte KPZ101.enable_channel_frame = 0x50 ∧
    Nat.testBit (destByte KPZ101.enable_channel_frame) 7 = false ∧
    KPZ101.enable_channel_frame.length = 6 ∧
    KPZ101.disable_channel_frame.length = 6 :=
  ⟨rfl, rfl, rfl, rfl, rfl, rfl, rfl, by decide, rfl, rfl⟩
